import Mathlib

/-!
Verification of the embiggen Node2Vec wrapper layer
(embiggen/embedders/ensmallen_embedders/node2vec.py and node2vec_glove.py)
against its natural-language specification.

The wrapper is a configuration-and-dispatch layer over a native embedding
engine: it validates the model name against a registry, normalizes and
forwards keyword arguments to a native model class, and post-processes
the native output (CBOW table reversal, dataframe conversion).  The
shallow embedding below mirrors the Python source: dictionaries of
keyword arguments become association lists over a PyValue type, fallible
construction becomes Except, and the native engine is a function
parameter.
-/

/-- Values stored in Python keyword-argument dictionaries: integers,
floats (modelled exactly as rationals), strings, booleans and None. -/
inductive PyValue : Type
  | int (n : Int)
  | float (q : ℚ)
  | str (s : String)
  | bool (b : Bool)
  | pynone
deriving DecidableEq, Repr

/-- Numeric view of a PyValue, for Python cross-type numeric equality
(in Python, 1 == 1.0 and True == 1 hold; bool is an int subclass). -/
def PyValue.toNum : PyValue → Option ℚ
  | .int n => some (n : ℚ)
  | .float q => some q
  | .bool b => some (if b then 1 else 0)
  | _ => Option.none

/-- Python equality on PyValue: numeric-like values compare through
their rational value, strings compare as strings, None only to None. -/
def pyEq (a b : PyValue) : Bool :=
  match a.toNum, b.toNum with
  | some x, some y => x == y
  | _, _ =>
    match a, b with
    | .str s, .str t => s == t
    | .pynone, .pynone => true
    | _, _ => false

/-- Python dictionaries of keyword arguments, as ordered association
lists (keys unique when built from dictInsert). -/
abbrev PyDict : Type := List (String × PyValue)

/-- Python dict update d[k] = v: overwrite in place when the key is
present (keeping its position, as Python dicts do), append otherwise. -/
def dictInsert (d : PyDict) (k : String) (v : PyValue) : PyDict :=
  if d.any (fun kv => kv.1 == k) then
    d.map (fun kv => if kv.1 = k then (k, v) else kv)
  else d ++ [(k, v)]

/-- Python dict key deletion (the removing half of dict.pop). -/
def dictRemove (d : PyDict) (k : String) : PyDict :=
  d.filter (fun kv => !(kv.1 == k))

/-- Check that the first character list starts the second one. -/
def startsWithL : List Char → List Char → Bool
  | [], _ => true
  | _ :: _, [] => false
  | a :: as, b :: bs => a == b && startsWithL as bs

/-- Check that the first character list occurs contiguously inside the
second one. -/
def occursIn (needle : List Char) : List Char → Bool
  | [] => needle.isEmpty
  | b :: bs => startsWithL needle (b :: bs) || occursIn needle bs

/-- Python substring containment, needle in haystack. -/
def strContains (haystack needle : String) : Bool :=
  occursIn needle.toList haystack.toList

/-- Native model classes of the ensmallen engine reachable from the
registry in node2vec.py (MODELS values). -/
inductive NativeModelClass : Type
  | CBOW
  | SkipGram
  | GloVe
  | DreamWalk
  | WalkletsCBOW
  | WalkletsSkipGram
  | WalkletsGloVe
deriving DecidableEq, Repr

namespace Node2VecEnsmallen

/-- The model registry of Node2VecEnsmallen (node2vec.py lines 17-28):
model-name string to native model class. -/
def MODELS : List (String × NativeModelClass) :=
  [("DeepWalk CBOW", .CBOW),
   ("DeepWalk SkipGram", .SkipGram),
   ("DeepWalk GloVe", .GloVe),
   ("Node2Vec CBOW", .CBOW),
   ("Node2Vec SkipGram", .SkipGram),
   ("Node2Vec GloVe", .GloVe),
   ("Node2Vec Dreamwalk", .DreamWalk),
   ("Walklets CBOW", .WalkletsCBOW),
   ("Walklets SkipGram", .WalkletsSkipGram),
   ("Walklets GloVe", .WalkletsGloVe)]

/-- Smoke test parameters of Node2VecEnsmallen (node2vec.py lines
80-89). -/
def smoke_test_parameters : PyDict :=
  [("epochs", .int 1),
   ("embedding_size", .int 5),
   ("window_size", .int 1),
   ("walk_length", .int 4),
   ("max_neighbours", .int 10)]

/-- Class-level declaration requires_edge_weights (node2vec.py lines
117-119): edge weights are never required. -/
def requires_edge_weights : Bool := false

/-- Class-level declaration requires_positive_edge_weights (node2vec.py
lines 121-123): when used, edge weights must be strictly positive. -/
def requires_positive_edge_weights : Bool := true

/-- Class-level declaration can_use_edge_weights (node2vec.py lines
125-128). -/
def can_use_edge_weights : Bool := true

end Node2VecEnsmallen

/-- Instantiated native model object, as built on node2vec.py lines
67-71: the class selected from the registry, plus the keyword arguments
it received (embedding_size and random_state explicitly, the rest
forwarded). -/
structure NativeModelInstance : Type where
  cls : NativeModelClass
  embeddingSize : PyValue
  randomState : PyValue
  kwargs : PyDict
deriving DecidableEq, Repr

/-- State of a successfully constructed Node2VecEnsmallen wrapper:
the retained keyword-argument dictionary self._model_kwargs (after
embedding_size and random_state are popped), the instantiated native
model, and the two popped values forwarded to the superclass. -/
structure Node2VecState : Type where
  modelKwargs : PyDict
  model : NativeModelInstance
  embeddingSize : PyValue
  randomState : PyValue
deriving DecidableEq, Repr

/-- Modelled from the spec: must_be_in_set is an external validation
helper (validation helpers are out-of-scope external collaborators per
spec section 1) whose source is not part of this repository; per the
spec's error taxonomy an unknown objective/strategy combination is a
ConfigurationError "raised before any walk or training work begins"
(spec section 7), so the helper returns the value when it belongs to
the valid set and fails otherwise. -/
def must_be_in_set (value : String) (validSet : List String) :
    Except String String :=
  if value ∈ validSet then Except.ok value
  else Except.error ("ConfigurationError: unknown model name " ++ value)

/-- Modelled from the spec: normalize_kwargs is an out-of-scope
argument-normalization helper of the wider package, not among the
visible sources (spec section 1 lists argument validation/normalization
helpers as external collaborators); it is modelled as preserving the
supplied keyword-argument mapping. -/
def normalize_kwargs (d : PyDict) : PyDict := d

/-- Constructor of Node2VecEnsmallen (node2vec.py lines 30-78): validate
the model name against the registry, merge embedding_size and
random_state into the keyword arguments, normalize, pop the two back
out, and instantiate the native model class found in the registry. -/
def node2vecInit (model_name : String)
    (embedding_size random_state : PyValue)
    (model_kwargs : PyDict) : Except String Node2VecState :=
  match must_be_in_set model_name (Node2VecEnsmallen.MODELS.map Prod.fst) with
  | .error e => .error e
  | .ok name =>
    let merged :=
      dictInsert (dictInsert model_kwargs "embedding_size" embedding_size)
        "random_state" random_state
    let mk := normalize_kwargs merged
    match mk.lookup "embedding_size", mk.lookup "random_state" with
    | some es, some rs =>
      let mk2 := dictRemove (dictRemove mk "embedding_size") "random_state"
      match (Node2VecEnsmallen.MODELS).lookup name with
      | some cls =>
        .ok { modelKwargs := mk2
              model := { cls := cls, embeddingSize := es,
                         randomState := rs, kwargs := mk2 }
              embeddingSize := es
              randomState := rs }
      | Option.none => .error "KeyError: model name"
    | _, _ => .error "KeyError: popped key missing"

/-- Instance method is_using_edge_weights (node2vec.py lines 130-132):
unconditionally True. -/
def is_using_edge_weights (_st : Node2VecState) : Bool := true

/-- Instance method is_using_node_types (node2vec.py lines 139-144):
the key change_node_type_weight is present in self._model_kwargs and
its value differs from 1.0 under Python equality. -/
def is_using_node_types (st : Node2VecState) : Bool :=
  match st.modelKwargs.lookup "change_node_type_weight" with
  | some v => !(pyEq v (.float 1))
  | Option.none => false

/-- Instance method is_using_edge_types (node2vec.py lines 151-156):
the key change_edge_type_weight is present in self._model_kwargs and
its value differs from 1.0 under Python equality. -/
def is_using_edge_types (st : Node2VecState) : Bool :=
  match st.modelKwargs.lookup "change_edge_type_weight" with
  | some v => !(pyEq v (.float 1))
  | Option.none => false

/-- Graph handle: the only operation the wrapper uses is
get_node_names, the node names in node-ID order. -/
structure Graph : Type where
  nodeNames : List String
deriving DecidableEq, Repr

/-- Accessor get_node_names of the graph handle. -/
def Graph.get_node_names (g : Graph) : List String := g.nodeNames

/-- Result of wrapping one native embedding table in a pandas DataFrame
indexed by node names (node2vec.py line 110). -/
structure DataFrame (α : Type) : Type where
  values : α
  index : List String
deriving DecidableEq, Repr

/-- One returned node-embedding table: either the raw native table or
its dataframe presentation, matching the two branches of
return_dataframe. -/
inductive EmbTable (α : Type) : Type
  | raw (t : α)
  | df (d : DataFrame α)
deriving DecidableEq, Repr

/-- EmbeddingResult as constructed on node2vec.py lines 113-115. -/
structure EmbeddingResult (α : Type) : Type where
  embedding_method_name : String
  node_embeddings : List (EmbTable α)
deriving DecidableEq, Repr

/-- Table-order post-processing of _fit_transform (node2vec.py lines
104-105): reverse the native engine's list of embedding tables exactly
when the model name contains "CBOW" as a substring. -/
def fitTransformTables (model_name : String) (native : List α) : List α :=
  if strContains model_name "CBOW" then native.reverse else native

/-- Method _fit_transform of Node2VecEnsmallen (node2vec.py lines
95-115), with the native engine's output supplied as the list of tables
it returned: apply the CBOW reversal, then either wrap every table in a
DataFrame indexed by the graph's node names or keep the raw tables, and
package the result with the model name. -/
def fit_transform (model_name : String) (g : Graph) (native : List α)
    (return_dataframe : Bool) : EmbeddingResult α :=
  let node_embeddings := fitTransformTables model_name native
  { embedding_method_name := model_name
    node_embeddings :=
      if return_dataframe then
        node_embeddings.map (fun t => EmbTable.df ⟨t, g.get_node_names⟩)
      else
        node_embeddings.map EmbTable.raw }

/-- Full wrapper pipeline: construct the model, run the native engine
on the graph (the engine itself is external and, per spec section 4.3,
deterministic given its seed, so it is modelled as a function of the
instantiated native model and the graph), then post-process. -/
def pipeline (nativeFit : NativeModelInstance → Graph → List α)
    (model_name : String) (embedding_size random_state : PyValue)
    (model_kwargs : PyDict) (g : Graph) (return_dataframe : Bool) :
    Except String (EmbeddingResult α) :=
  (node2vecInit model_name embedding_size random_state model_kwargs).map
    (fun st => fit_transform model_name g (nativeFit st.model g) return_dataframe)

namespace Node2VecGloVeEnsmallen

/-- Model name of Node2VecGloVeEnsmallen (node2vec_glove.py lines
149-152). -/
def model_name : String := "Node2Vec GloVe"

/-- Keys removed by Node2VecGloVeEnsmallen.parameters (node2vec_glove.py
lines 135-140). -/
def removed : List String :=
  ["change_node_type_weight",
   "change_edge_type_weight",
   "number_of_negative_samples",
   "iterations"]

/-- Method parameters of Node2VecGloVeEnsmallen (node2vec_glove.py lines
133-147): the inherited parameter mapping filtered to drop the removed
keys, all other entries kept as they are. -/
def parameters (inherited : PyDict) : PyDict :=
  inherited.filter (fun kv => !(removed.contains kv.1))

/-- Constructor of Node2VecGloVeEnsmallen (node2vec_glove.py lines
10-131): forward all hyperparameters to the Node2VecEnsmallen
constructor, embedding_size and random_state bound to the named
superclass parameters and the rest collected into model_kwargs in call
order, with iterations pinned to 1. -/
def init (embedding_size alpha epochs walk_length window_size
    return_weight explore_weight change_node_type_weight
    change_edge_type_weight max_neighbours learning_rate
    learning_rate_decay central_nodes_embedding_path
    contextual_nodes_embedding_path normalize_by_degree dtype
    random_state edgetype_transition_file verbose : PyValue) :
    Except String Node2VecState :=
  node2vecInit model_name embedding_size random_state
    [("alpha", alpha),
     ("epochs", epochs),
     ("walk_length", walk_length),
     ("iterations", .int 1),
     ("window_size", window_size),
     ("return_weight", return_weight),
     ("explore_weight", explore_weight),
     ("change_node_type_weight", change_node_type_weight),
     ("change_edge_type_weight", change_edge_type_weight),
     ("max_neighbours", max_neighbours),
     ("learning_rate", learning_rate),
     ("learning_rate_decay", learning_rate_decay),
     ("central_nodes_embedding_path", central_nodes_embedding_path),
     ("contextual_nodes_embedding_path", contextual_nodes_embedding_path),
     ("normalize_by_degree", normalize_by_degree),
     ("dtype", dtype),
     ("edgetype_transition_file", edgetype_transition_file),
     ("verbose", verbose)]

end Node2VecGloVeEnsmallen

/-- Modelled from the spec: enforcement of the positive-edge-weight
graph constraint lives outside the visible sources (the abstract model
framework and native engine); per spec sections 3 and 7, a graph
carrying a non-positive edge weight while edge-weight usage is enabled
and the model requires strictly positive weights is a
GraphConstraintError. -/
def validate_edge_weights (usingEdgeWeights requiresPositive : Bool)
    (edgeWeights : List ℚ) : Except String Unit :=
  if usingEdgeWeights && requiresPositive && edgeWeights.any (· ≤ 0) then
    Except.error "GraphConstraintError"
  else Except.ok ()

theorem lookup_cons {β : Type} (k k0 : String) (v0 : β) (t : List (String × β)) :
    ((k0, v0) :: t).lookup k = if k = k0 then some v0 else t.lookup k := by
  by_cases hk : k = k0
  · simp [List.lookup, hk]
  · have hb : (k == k0) = false := beq_eq_false_iff_ne.mpr hk
    simp [List.lookup, hb, hk]

theorem lookup_map_overwrite (t : PyDict) (k : String) (v : PyValue)
    (h : t.any (fun kv => kv.1 == k) = true) :
    (t.map (fun kv => if kv.1 = k then (k, v) else kv)).lookup k = some v := by
  induction t with
  | nil => simp at h
  | cons a t ih =>
    obtain ⟨k0, v0⟩ := a
    by_cases hk : k0 = k
    · simp [hk, lookup_cons]
    · have h' : t.any (fun kv => kv.1 == k) = true := by
        simpa [hk] using h
      simp [hk, lookup_cons, Ne.symm hk, ih h']

theorem lookup_append_single (t : PyDict) (k : String) (v : PyValue)
    (h : t.any (fun kv => kv.1 == k) = false) :
    (t ++ [(k, v)]).lookup k = some v := by
  induction t with
  | nil => simp [lookup_cons]
  | cons a t ih =>
    obtain ⟨k0, v0⟩ := a
    by_cases hk : k0 = k
    · simp [hk] at h
    · have h' : t.any (fun kv => kv.1 == k) = false := by
        simpa [hk] using h
      simp [List.cons_append, lookup_cons, Ne.symm hk, ih h']

theorem lookup_dictInsert_self (d : PyDict) (k : String) (v : PyValue) :
    (dictInsert d k v).lookup k = some v := by
  unfold dictInsert
  by_cases h : d.any (fun kv => kv.1 == k) = true
  · rw [if_pos h]
    exact lookup_map_overwrite d k v h
  · rw [if_neg h]
    exact lookup_append_single d k v (Bool.not_eq_true _ ▸ h)

theorem lookup_map_overwrite_ne (t : PyDict) (k k' : String) (v : PyValue)
    (h : k' ≠ k) :
    (t.map (fun kv => if kv.1 = k then (k, v) else kv)).lookup k' =
      t.lookup k' := by
  induction t with
  | nil => simp
  | cons a t ih =>
    obtain ⟨k0, v0⟩ := a
    by_cases hk : k0 = k
    · subst hk
      simp [lookup_cons, h, ih]
    · by_cases hk' : k' = k0
      · simp [hk, lookup_cons, hk']
      · simp [hk, lookup_cons, hk', ih]

theorem lookup_append_single_ne (t : PyDict) (k k' : String) (v : PyValue)
    (h : k' ≠ k) :
    (t ++ [(k, v)]).lookup k' = t.lookup k' := by
  induction t with
  | nil => simp [lookup_cons, h]
  | cons a t ih =>
    obtain ⟨k0, v0⟩ := a
    by_cases hk' : k' = k0
    · simp [List.cons_append, lookup_cons, hk']
    · simp [List.cons_append, lookup_cons, hk', ih]

theorem lookup_dictInsert_ne (d : PyDict) (k k' : String) (v : PyValue)
    (h : k' ≠ k) : (dictInsert d k v).lookup k' = d.lookup k' := by
  unfold dictInsert
  by_cases hc : d.any (fun kv => kv.1 == k) = true
  · rw [if_pos hc]
    exact lookup_map_overwrite_ne d k k' v h
  · rw [if_neg hc]
    exact lookup_append_single_ne d k k' v h

theorem lookup_filterKeys (p : String → Bool) (d : PyDict) (k : String) :
    (d.filter (fun kv => p kv.1)).lookup k =
      if p k then d.lookup k else Option.none := by
  induction d with
  | nil => simp [List.lookup]
  | cons a t ih =>
    obtain ⟨k0, v0⟩ := a
    by_cases hp : p k0 = true
    · by_cases hk : k = k0
      · subst hk
        simp [List.filter_cons, hp, lookup_cons]
      · simp [List.filter_cons, hp, lookup_cons, hk, ih]
    · by_cases hk : k = k0
      · subst hk
        simp [List.filter_cons, hp, lookup_cons, ih]
      · simp [List.filter_cons, hp, lookup_cons, hk, ih]

theorem mem_keys_of_lookup {β : Type} (d : List (String × β)) (k : String)
    (v : β) (h : d.lookup k = some v) : k ∈ d.map Prod.fst := by
  induction d with
  | nil => simp [List.lookup] at h
  | cons a t ih =>
    obtain ⟨k0, v0⟩ := a
    rw [lookup_cons] at h
    by_cases hk : k = k0
    · simp [hk]
    · rw [if_neg hk] at h
      simp [hk, ih h]

theorem lookup_isSome_of_mem_keys {β : Type} (d : List (String × β))
    (k : String) (h : k ∈ d.map Prod.fst) : ∃ v, d.lookup k = some v := by
  induction d with
  | nil => simp at h
  | cons a t ih =>
    obtain ⟨k0, v0⟩ := a
    by_cases hk : k = k0
    · exact ⟨v0, by rw [lookup_cons, if_pos hk]⟩
    · have h' : k ∈ t.map Prod.fst := by simpa [hk] using h
      obtain ⟨v, hv⟩ := ih h'
      exact ⟨v, by rw [lookup_cons, if_neg hk]; exact hv⟩

/-- Keyword dictionary retained by a successful construction: the
supplied keyword arguments with embedding_size and random_state merged
in and then popped back out. -/
def cleanKwargs (kw : PyDict) (es rs : PyValue) : PyDict :=
  dictRemove
    (dictRemove
      (normalize_kwargs
        (dictInsert (dictInsert kw "embedding_size" es) "random_state" rs))
      "embedding_size")
    "random_state"

theorem node2vecInit_not_mem (name : String) (es rs : PyValue) (kw : PyDict)
    (h : name ∉ Node2VecEnsmallen.MODELS.map Prod.fst) :
    node2vecInit name es rs kw =
      Except.error ("ConfigurationError: unknown model name " ++ name) := by
  simp [node2vecInit, must_be_in_set, h]

theorem node2vecInit_ok_eq (name : String) (cls : NativeModelClass)
    (es rs : PyValue) (kw : PyDict)
    (hc : Node2VecEnsmallen.MODELS.lookup name = some cls) :
    node2vecInit name es rs kw =
      Except.ok
        { modelKwargs := cleanKwargs kw es rs
          model := { cls := cls, embeddingSize := es, randomState := rs,
                     kwargs := cleanKwargs kw es rs }
          embeddingSize := es
          randomState := rs } := by
  have hm : name ∈ Node2VecEnsmallen.MODELS.map Prod.fst :=
    mem_keys_of_lookup _ _ _ hc
  have h1 : (dictInsert (dictInsert kw "embedding_size" es)
      "random_state" rs).lookup "random_state" = some rs :=
    lookup_dictInsert_self _ _ _
  have h2 : (dictInsert (dictInsert kw "embedding_size" es)
      "random_state" rs).lookup "embedding_size" = some es := by
    rw [lookup_dictInsert_ne _ _ _ _ (by decide)]
    exact lookup_dictInsert_self _ _ _
  simp [node2vecInit, must_be_in_set, hm, normalize_kwargs, h1, h2, hc,
    cleanKwargs]

/-- Keyword dictionary Node2VecGloVeEnsmallen forwards to the abstract
constructor (everything passed on node2vec_glove.py lines 108-131 apart
from the named superclass parameters), in call order. -/
def gloveKwargs (alpha epochs walk_length window_size return_weight
    explore_weight change_node_type_weight change_edge_type_weight
    max_neighbours learning_rate learning_rate_decay
    central_nodes_embedding_path contextual_nodes_embedding_path
    normalize_by_degree dtype edgetype_transition_file verbose : PyValue) :
    PyDict :=
  [("alpha", alpha), ("epochs", epochs), ("walk_length", walk_length),
   ("iterations", .int 1), ("window_size", window_size),
   ("return_weight", return_weight), ("explore_weight", explore_weight),
   ("change_node_type_weight", change_node_type_weight),
   ("change_edge_type_weight", change_edge_type_weight),
   ("max_neighbours", max_neighbours), ("learning_rate", learning_rate),
   ("learning_rate_decay", learning_rate_decay),
   ("central_nodes_embedding_path", central_nodes_embedding_path),
   ("contextual_nodes_embedding_path", contextual_nodes_embedding_path),
   ("normalize_by_degree", normalize_by_degree), ("dtype", dtype),
   ("edgetype_transition_file", edgetype_transition_file),
   ("verbose", verbose)]

theorem gloveInit_eval
    (es al ep wl ws rw ew cntw cetw mn lr lrd cp ctp nbd dt rs etf vb :
      PyValue) :
    Node2VecGloVeEnsmallen.init es al ep wl ws rw ew cntw cetw mn lr lrd
        cp ctp nbd dt rs etf vb =
      Except.ok
        { modelKwargs :=
            gloveKwargs al ep wl ws rw ew cntw cetw mn lr lrd cp ctp nbd
              dt etf vb
          model :=
            { cls := .GloVe, embeddingSize := es, randomState := rs
              kwargs :=
                gloveKwargs al ep wl ws rw ew cntw cetw mn lr lrd cp ctp
                  nbd dt etf vb }
          embeddingSize := es
          randomState := rs } := rfl

theorem lookup_glove_params (inherited : PyDict) (k : String) :
    (Node2VecGloVeEnsmallen.parameters inherited).lookup k =
      if !(Node2VecGloVeEnsmallen.removed.contains k) then
        inherited.lookup k
      else Option.none :=
  lookup_filterKeys (fun s => !(Node2VecGloVeEnsmallen.removed.contains s))
    inherited k

/-- C1: for every model whose model name contains "CBOW", fit-transform
returns the embedding tables in reversed order relative to the native
engine's output, while for every SkipGram and GloVe model name (none of
which contains "CBOW") the native order is preserved unchanged. -/
theorem cbow_reverses_table_order {α : Type} (model_name : String)
    (native : List α) :
    (strContains model_name "CBOW" = true →
        fitTransformTables model_name native = native.reverse)
    ∧ (strContains model_name "CBOW" = false →
        fitTransformTables model_name native = native)
    ∧ (∀ n ∈ ["DeepWalk CBOW", "Node2Vec CBOW", "Walklets CBOW"],
        strContains n "CBOW" = true)
    ∧ (∀ n ∈ ["DeepWalk SkipGram", "Node2Vec SkipGram", "Walklets SkipGram",
              "DeepWalk GloVe", "Node2Vec GloVe", "Walklets GloVe"],
        strContains n "CBOW" = false)
    ∧ (∀ g : Graph, strContains model_name "CBOW" = true →
        (fit_transform model_name g native false).node_embeddings =
          native.reverse.map EmbTable.raw)
    ∧ (∀ g : Graph, strContains model_name "CBOW" = false →
        (fit_transform model_name g native false).node_embeddings =
          native.map EmbTable.raw) := by
  refine ⟨fun h => ?_, fun h => ?_, by decide, by decide,
    fun g h => ?_, fun g h => ?_⟩
  · simp [fitTransformTables, h]
  · simp [fitTransformTables, h]
  · simp [fit_transform, fitTransformTables, h]
  · simp [fit_transform, fitTransformTables, h]

theorem cbow_reverses_table_order_witness :
    fitTransformTables "Node2Vec CBOW" [(0 : Nat), 1] = [1, 0]
    ∧ fitTransformTables "Node2Vec SkipGram" [(0 : Nat), 1] = [0, 1] :=
  ⟨(cbow_reverses_table_order "Node2Vec CBOW" [0, 1]).1 (by decide),
   (cbow_reverses_table_order "Node2Vec SkipGram" [0, 1]).2.1 (by decide)⟩

/-- C2: construction with an unregistered model name fails with a
configuration error before a native model object exists, while every
registered name dispatches to its registry class. -/
theorem registry_validation_and_dispatch (model_name : String)
    (es rs : PyValue) (kw : PyDict) :
    (model_name ∉ Node2VecEnsmallen.MODELS.map Prod.fst →
        node2vecInit model_name es rs kw =
          Except.error
            ("ConfigurationError: unknown model name " ++ model_name))
    ∧ (∀ cls, Node2VecEnsmallen.MODELS.lookup model_name = some cls →
        ∃ st, node2vecInit model_name es rs kw = Except.ok st
          ∧ st.model.cls = cls) := by
  constructor
  · intro h
    exact node2vecInit_not_mem model_name es rs kw h
  · intro cls hc
    exact ⟨_, node2vecInit_ok_eq model_name cls es rs kw hc, rfl⟩

theorem registry_validation_and_dispatch_witness :
    node2vecInit "Node2Vec FastText" (.int 100) (.int 42) [] =
        Except.error "ConfigurationError: unknown model name Node2Vec FastText"
    ∧ ∃ st, node2vecInit "Walklets GloVe" (.int 100) (.int 42) [] =
        Except.ok st ∧ st.model.cls = NativeModelClass.WalkletsGloVe :=
  ⟨(registry_validation_and_dispatch "Node2Vec FastText" (.int 100)
      (.int 42) []).1 (by decide),
   (registry_validation_and_dispatch "Walklets GloVe" (.int 100)
      (.int 42) []).2 NativeModelClass.WalkletsGloVe (by decide)⟩

/-- C3: the GloVe parameters operation returns the inherited parameter
mapping with exactly the four removed keys dropped and every other
entry unchanged (the result is a sub-sequence of the inherited
mapping). -/
theorem glove_parameters_removes_exactly (inherited : PyDict)
    (k : String) :
    ((Node2VecGloVeEnsmallen.parameters inherited).lookup k =
        if Node2VecGloVeEnsmallen.removed.contains k then Option.none
        else inherited.lookup k)
    ∧ List.Sublist (Node2VecGloVeEnsmallen.parameters inherited)
        inherited := by
  constructor
  · rw [lookup_glove_params]
    by_cases hc : Node2VecGloVeEnsmallen.removed.contains k <;> simp [hc]
  · exact List.filter_sublist _

/-- C4: the smoke-test parameter set is exactly epochs 1,
embedding_size 5, window_size 1, walk_length 4, max_neighbours 10. -/
theorem smoke_test_parameters_exact :
    Node2VecEnsmallen.smoke_test_parameters.map Prod.fst =
        ["epochs", "embedding_size", "window_size", "walk_length",
         "max_neighbours"]
    ∧ Node2VecEnsmallen.smoke_test_parameters.lookup "epochs" =
        some (.int 1)
    ∧ Node2VecEnsmallen.smoke_test_parameters.lookup "embedding_size" =
        some (.int 5)
    ∧ Node2VecEnsmallen.smoke_test_parameters.lookup "window_size" =
        some (.int 1)
    ∧ Node2VecEnsmallen.smoke_test_parameters.lookup "walk_length" =
        some (.int 4)
    ∧ Node2VecEnsmallen.smoke_test_parameters.lookup "max_neighbours" =
        some (.int 10) := by
  decide

/-- C5: every Node2Vec model declares strictly positive edge weights
required when weights are used, never requires edge weights, and a
negative edge weight under enabled edge-weight usage is a
graph-constraint error. -/
theorem edge_weight_requirement_flags :
    Node2VecEnsmallen.requires_positive_edge_weights = true
    ∧ Node2VecEnsmallen.requires_edge_weights = false
    ∧ (∀ (ws : List ℚ) (w : ℚ), w ∈ ws → w < 0 →
        validate_edge_weights true
          Node2VecEnsmallen.requires_positive_edge_weights ws =
            Except.error "GraphConstraintError") := by
  refine ⟨rfl, rfl, ?_⟩
  intro ws w hmem hneg
  have hany : ws.any (fun x => decide (x ≤ 0)) = true := by
    rw [List.any_eq_true]
    exact ⟨w, hmem, by simpa using le_of_lt hneg⟩
  simp [validate_edge_weights,
    Node2VecEnsmallen.requires_positive_edge_weights, hany]

theorem edge_weight_requirement_flags_witness :
    validate_edge_weights true
        Node2VecEnsmallen.requires_positive_edge_weights [(-1 : ℚ)] =
      Except.error "GraphConstraintError" :=
  edge_weight_requirement_flags.2.2 [(-1 : ℚ)] (-1) (by decide) (by decide)

/-- C6: is_using_node_types holds exactly when change_node_type_weight
is among the retained model parameters with a value other than 1.0, and
symmetrically for is_using_edge_types; on a constructed GloVe model
with float type weights q and r the flags decide q and r against 1. -/
theorem type_bias_flags
    (es al ep wl ws rw ew mn lr lrd cp ctp nbd dt rs etf vb : PyValue)
    (q r : ℚ) :
    (∀ st : Node2VecState, is_using_node_types st = true ↔
        ∃ v, st.modelKwargs.lookup "change_node_type_weight" = some v
          ∧ pyEq v (.float 1) = false)
    ∧ (∀ st : Node2VecState, is_using_edge_types st = true ↔
        ∃ v, st.modelKwargs.lookup "change_edge_type_weight" = some v
          ∧ pyEq v (.float 1) = false)
    ∧ ∃ st, Node2VecGloVeEnsmallen.init es al ep wl ws rw ew (.float q)
          (.float r) mn lr lrd cp ctp nbd dt rs etf vb = Except.ok st
        ∧ (is_using_node_types st = true ↔ q ≠ 1)
        ∧ (is_using_edge_types st = true ↔ r ≠ 1) := by
  refine ⟨?_, ?_, ?_⟩
  · intro st
    cases hv : st.modelKwargs.lookup "change_node_type_weight" with
    | none => simp [is_using_node_types, hv]
    | some v => simp [is_using_node_types, hv]
  · intro st
    cases hv : st.modelKwargs.lookup "change_edge_type_weight" with
    | none => simp [is_using_edge_types, hv]
    | some v => simp [is_using_edge_types, hv]
  · refine ⟨_, gloveInit_eval es al ep wl ws rw ew (.float q) (.float r)
      mn lr lrd cp ctp nbd dt rs etf vb, ?_, ?_⟩
    · show (!(q == 1)) = true ↔ q ≠ 1
      simp
    · show (!(r == 1)) = true ↔ r ≠ 1
      simp

/-- C7: with return_dataframe, the result holds one dataframe per
native table, each indexed by the graph's node names, and the method
name equals the model name. -/
theorem dataframe_result_indexed_by_node_names {α : Type}
    (model_name : String) (g : Graph) (native : List α) :
    (fit_transform model_name g native true).embedding_method_name =
        model_name
    ∧ (fit_transform model_name g native true).node_embeddings.length =
        native.length
    ∧ ∀ e ∈ (fit_transform model_name g native true).node_embeddings,
        ∃ t, e = EmbTable.df { values := t, index := g.get_node_names } := by
  refine ⟨rfl, ?_, ?_⟩
  · simp [fit_transform, fitTransformTables]
    split <;> simp
  · intro e he
    simp [fit_transform, List.mem_map] at he
    obtain ⟨t, ht, rfl⟩ := he
    exact ⟨t, rfl⟩

theorem dataframe_result_indexed_by_node_names_witness :
    (fit_transform "Node2Vec SkipGram" { nodeNames := ["a", "b"] }
        [[(1 : Nat), 2], [3, 4]] true).embedding_method_name =
      "Node2Vec SkipGram" :=
  (dataframe_result_indexed_by_node_names "Node2Vec SkipGram"
    { nodeNames := ["a", "b"] } [[(1 : Nat), 2], [3, 4]]).1

/-- C8: the wrapper forwards random_state (and embedding_size) to the
instantiated native model, and the pipeline output is a function of
engine, configuration, seed and graph alone: runs on identical inputs
coincide. -/
theorem seed_forwarding_and_determinism {α : Type}
    (nativeFit : NativeModelInstance → Graph → List α)
    (model_name : String) (es rs : PyValue) (kw : PyDict) (g : Graph)
    (rd : Bool) (st : Node2VecState)
    (h : node2vecInit model_name es rs kw = Except.ok st) :
    st.model.randomState = rs
    ∧ st.model.embeddingSize = es
    ∧ (∀ (n2 : String) (es2 rs2 : PyValue) (kw2 : PyDict) (g2 : Graph)
          (rd2 : Bool),
        n2 = model_name → es2 = es → rs2 = rs → kw2 = kw → g2 = g →
          rd2 = rd →
        pipeline nativeFit n2 es2 rs2 kw2 g2 rd2 =
          pipeline nativeFit model_name es rs kw g rd) := by
  have key : st.model.randomState = rs ∧ st.model.embeddingSize = es := by
    by_cases hm : model_name ∈ Node2VecEnsmallen.MODELS.map Prod.fst
    · obtain ⟨cls, hc⟩ :=
        lookup_isSome_of_mem_keys Node2VecEnsmallen.MODELS model_name hm
      rw [node2vecInit_ok_eq model_name cls es rs kw hc] at h
      injection h with h'
      rw [← h']
      exact ⟨rfl, rfl⟩
    · rw [node2vecInit_not_mem model_name es rs kw hm] at h
      exact absurd h (by simp)
  refine ⟨key.1, key.2, ?_⟩
  intro n2 es2 rs2 kw2 g2 rd2 h1 h2 h3 h4 h5 h6
  subst h1; subst h2; subst h3; subst h4; subst h5; subst h6
  rfl

theorem seed_forwarding_and_determinism_witness :
    ({ modelKwargs := []
       model := { cls := NativeModelClass.SkipGram
                  embeddingSize := PyValue.int 5
                  randomState := PyValue.int 42, kwargs := [] }
       embeddingSize := PyValue.int 5
       randomState := PyValue.int 42 } : Node2VecState).model.randomState =
      PyValue.int 42 :=
  (seed_forwarding_and_determinism (fun _ _ => ([] : List Nat))
    "DeepWalk SkipGram" (PyValue.int 5) (PyValue.int 42) []
    { nodeNames := [] } true _ rfl).1

/-- C9: is_using_edge_weights reports True for every instance, even
though requires_edge_weights is False. -/
theorem edge_weights_always_reported_in_use (st : Node2VecState) :
    is_using_edge_weights st = true
    ∧ Node2VecEnsmallen.requires_edge_weights = false :=
  ⟨rfl, rfl⟩

/-- C10: the registry supports exactly ten combinations: the three
objectives under DeepWalk, Node2Vec and Walklets, plus DreamWalk only
as the single key "Node2Vec Dreamwalk"; no other strategy has a
DreamWalk entry. -/
theorem registry_supports_exactly_ten :
    Node2VecEnsmallen.MODELS.map Prod.fst =
        ["DeepWalk CBOW", "DeepWalk SkipGram", "DeepWalk GloVe",
         "Node2Vec CBOW", "Node2Vec SkipGram", "Node2Vec GloVe",
         "Node2Vec Dreamwalk",
         "Walklets CBOW", "Walklets SkipGram", "Walklets GloVe"]
    ∧ Node2VecEnsmallen.MODELS.length = 10
    ∧ (∀ s ∈ ["DeepWalk", "Node2Vec", "Walklets"],
        ∀ o ∈ ["CBOW", "SkipGram", "GloVe"],
          (s ++ " " ++ o) ∈ Node2VecEnsmallen.MODELS.map Prod.fst)
    ∧ "Node2Vec Dreamwalk" ∈ Node2VecEnsmallen.MODELS.map Prod.fst
    ∧ "DeepWalk Dreamwalk" ∉ Node2VecEnsmallen.MODELS.map Prod.fst
    ∧ "Walklets Dreamwalk" ∉ Node2VecEnsmallen.MODELS.map Prod.fst
    ∧ "DeepWalk DreamWalk" ∉ Node2VecEnsmallen.MODELS.map Prod.fst
    ∧ "Node2Vec DreamWalk" ∉ Node2VecEnsmallen.MODELS.map Prod.fst
    ∧ "Walklets DreamWalk" ∉ Node2VecEnsmallen.MODELS.map Prod.fst := by
  decide
